import Mathlib

/-!
Verification of the rollback/orchestration sequencer of the openclaw-cli
repository (`openclaw_deploy/rollback.py`) and of the contract its workflow
drivers (`deploy.py:run_deploy`, `update.py:run_update`) keep with it.

Modelling conventions (shallow embedding):
* A registered undo operation is an opaque value of a type `φ`; its runtime
  behaviour when invoked is supplied by an environment `invoke : φ → Except ε Unit`
  (spec section 6: the sequencer treats operations as opaque
  zero-or-nonzero-outcome procedures: an invocation either returns normally
  or raises, and the raised value is opaque).
* `RollbackManager.execute` mirrors `rollback.py` lines 70-104. It returns the
  aggregate success flag, the trace of operations actually invoked (in
  invocation order), and the post-state of the manager. The Python method
  mutates neither `self.actions` nor `self.enabled`, so the post-state is the
  pre-state.
* `RollbackManager.executeE` is the same method embedded in the `Except`
  monad, where each single invocation may raise and the per-action
  `try/except Exception` block is the `tryCatch`; proving it always returns
  `Except.ok` is the no-throw contract of `execute` toward its caller.
-/

set_option autoImplicit false

namespace OpenClaw

variable {φ : Type} {ε : Type}

/-- One entry of the rollback log, `rollback.py` lines 20-30: a human-readable
name used only for reporting, plus the bound operation. The Python dataclass
stores the callable together with its captured `args`/`kwargs`; here the
already-bound deferred call is the single opaque value `action`. -/
structure RollbackAction (φ : Type) where
  name : String
  action : φ
deriving DecidableEq

/-- Sequencer state, `rollback.py` lines 33-39: the ordered log of registered
actions plus the `enabled` flag. The `config` attribute is stored but never
read by any method of the class, so it is omitted. -/
structure RollbackManager (φ : Type) where
  actions : List (RollbackAction φ)
  enabled : Bool
deriving DecidableEq

/-- `RollbackManager.__init__`: empty log, rollback enabled. -/
def RollbackManager.init (φ : Type) : RollbackManager φ :=
  { actions := [], enabled := true }

/-- `add_action`, lines 41-58: appends one new action to the end of the log. -/
def RollbackManager.add_action (m : RollbackManager φ) (name : String) (action : φ) :
    RollbackManager φ :=
  { m with actions := m.actions ++ [{ name := name, action := action }] }

/-- `disable`, lines 60-63: sets `enabled` to false; touches nothing else. -/
def RollbackManager.disable (m : RollbackManager φ) : RollbackManager φ :=
  { m with enabled := false }

/-- `clear`, lines 65-68: empties the log; touches nothing else. -/
def RollbackManager.clear (m : RollbackManager φ) : RollbackManager φ :=
  { m with actions := [] }

/-- Body of the `for action in reversed(self.actions)` loop of `execute`,
lines 91-97: invoke the bound operation; on a raise, catch it and set the
aggregate `success` flag to false. The accumulator carries the `success`
flag and the trace of operations invoked so far (the operation is invoked,
hence traced, whether or not it raises). -/
def invokeStep (invoke : φ → Except ε Unit) (acc : Bool × List φ) (a : RollbackAction φ) :
    Bool × List φ :=
  match invoke a.action with
  | Except.ok _ => (acc.1, acc.2 ++ [a.action])
  | Except.error _ => (false, acc.2 ++ [a.action])

/-- `execute`, lines 70-104. Returns (aggregate success, invocation trace,
post-state). Guard order as in the source: the `enabled` check precedes the
empty-log check. The method never assigns to `self.actions` or
`self.enabled`, so the returned post-state is the input state. -/
def RollbackManager.execute (m : RollbackManager φ) (invoke : φ → Except ε Unit) :
    Bool × List φ × RollbackManager φ :=
  if m.enabled = false then (true, [], m)
  else if m.actions.isEmpty then (true, [], m)
  else
    let r := m.actions.reverse.foldl (invokeStep invoke) (true, [])
    (r.1, r.2, m)

/-- One iteration of the `execute` loop embedded in the `Except` monad: the
invocation of the bound operation may raise, and the surrounding
`try ... except Exception` of lines 92-97 is the `Except.tryCatch`: a raise
is caught and turned into `success = false`, with the loop continuing. -/
def invokeStepE (invoke : φ → Except ε Unit) (acc : Bool × List φ) (a : RollbackAction φ) :
    Except ε (Bool × List φ) :=
  Except.tryCatch
    ((invoke a.action).bind (fun _ => Except.ok (acc.1, acc.2 ++ [a.action])))
    (fun _ => Except.ok (false, acc.2 ++ [a.action]))

/-- `execute` embedded in the `Except` monad, where a single undo invocation
may raise; proving that this always returns `Except.ok` is the no-throw
contract of `execute` toward its caller. Everything outside the per-action
`tryCatch` is pure. -/
def RollbackManager.executeE (m : RollbackManager φ) (invoke : φ → Except ε Unit) :
    Except ε (Bool × List φ) :=
  if m.enabled = false then Except.ok (true, [])
  else if m.actions.isEmpty then Except.ok (true, [])
  else
    m.actions.reverse.foldlM (invokeStepE invoke) (true, [])

/-- A sequencer built by registering the bound operations of `l` (with their
names) one `add_action` call at a time, starting from a fresh manager. -/
def mkManager (l : List (String × φ)) : RollbackManager φ :=
  l.foldl (fun m p => m.add_action p.1 p.2) (RollbackManager.init φ)

/- ### Basic lemmas about the log and the execute loop -/

theorem add_action_actions (m : RollbackManager φ) (n : String) (a : φ) :
    (m.add_action n a).actions = m.actions ++ [{ name := n, action := a }] := rfl

theorem add_action_enabled (m : RollbackManager φ) (n : String) (a : φ) :
    (m.add_action n a).enabled = m.enabled := rfl

theorem foldl_add_action_actions (l : List (String × φ)) (m : RollbackManager φ) :
    (l.foldl (fun m p => m.add_action p.1 p.2) m).actions
      = m.actions ++ l.map (fun p => { name := p.1, action := p.2 }) := by
  induction l generalizing m with
  | nil => simp
  | cons p l ih =>
    simp [List.foldl_cons, ih, add_action_actions, List.append_assoc]

theorem foldl_add_action_enabled (l : List (String × φ)) (m : RollbackManager φ) :
    (l.foldl (fun m p => m.add_action p.1 p.2) m).enabled = m.enabled := by
  induction l generalizing m with
  | nil => rfl
  | cons p l ih => simp [List.foldl_cons, ih, add_action_enabled]

theorem mkManager_actions (l : List (String × φ)) :
    (mkManager l).actions = l.map (fun p => { name := p.1, action := p.2 }) := by
  simp [mkManager, foldl_add_action_actions, RollbackManager.init]

theorem mkManager_enabled (l : List (String × φ)) :
    (mkManager l).enabled = true := by
  simp [mkManager, foldl_add_action_enabled, RollbackManager.init]

theorem foldl_invokeStep_trace (invoke : φ → Except ε Unit)
    (l : List (RollbackAction φ)) (b : Bool) (t : List φ) :
    (l.foldl (invokeStep invoke) (b, t)).2 = t ++ l.map (fun a => a.action) := by
  induction l generalizing b t with
  | nil => simp
  | cons a l ih =>
    simp only [List.foldl_cons, List.map_cons]
    cases h : invoke a.action <;>
      simp [invokeStep, h, ih, List.append_assoc]

theorem foldl_invokeStep_success (invoke : φ → Except ε Unit)
    (l : List (RollbackAction φ)) (b : Bool) (t : List φ) :
    (l.foldl (invokeStep invoke) (b, t)).1
      = (b && l.all (fun a => (invoke a.action).isOk)) := by
  induction l generalizing b t with
  | nil => simp
  | cons a l ih =>
    simp only [List.foldl_cons, List.all_cons]
    cases h : invoke a.action <;>
      simp [invokeStep, h, ih, Except.isOk, Except.toBool, Bool.and_assoc]

theorem execute_trace (invoke : φ → Except ε Unit) (m : RollbackManager φ)
    (h : m.enabled = true) :
    (m.execute invoke).2.1 = m.actions.reverse.map (fun a => a.action) := by
  obtain ⟨acts, en⟩ := m
  cases en
  · cases h
  · cases acts with
    | nil => rfl
    | cons a l =>
      show ((((a :: l).reverse).foldl (invokeStep invoke) (true, [])).2 : List φ) = _
      rw [foldl_invokeStep_trace]
      simp

theorem execute_success_eq_all (invoke : φ → Except ε Unit) (m : RollbackManager φ)
    (h : m.enabled = true) :
    (m.execute invoke).1 = m.actions.all (fun a => (invoke a.action).isOk) := by
  obtain ⟨acts, en⟩ := m
  cases en
  · cases h
  · cases acts with
    | nil => rfl
    | cons a l =>
      show ((((a :: l).reverse).foldl (invokeStep invoke) (true, [])).1 : Bool) = _
      rw [foldl_invokeStep_success]
      simp [List.all_eq_true, Bool.and_comm]

theorem execute_state (invoke : φ → Except ε Unit) (m : RollbackManager φ) :
    (m.execute invoke).2.2 = m := by
  by_cases h1 : m.enabled = false <;> by_cases h2 : m.actions.isEmpty <;>
    simp [RollbackManager.execute, h1, h2]

/- ### C1: unwinding runs in exact reverse registration order -/

/-- C1: for every sequence of actions registered via `add_action` (and not
cleared), `execute` invokes the registered operations in exact reverse
registration order: the last-registered operation first, the
first-registered operation last, whatever the outcome of each invocation. -/
theorem execute_unwinds_in_reverse_order (invoke : φ → Except ε Unit)
    (l : List (String × φ)) :
    ((mkManager l).execute invoke).2.1 = (l.map Prod.snd).reverse := by
  rw [execute_trace invoke _ (mkManager_enabled l), mkManager_actions]
  simp

/- ### C2: every action invoked exactly once; true iff all succeeded -/

/-- C2: with rollback enabled, `execute` invokes every one of the registered
operations exactly once (the invocation trace is exactly the reversed log)
even when some invocations raise, and it returns true if and only if every
invocation succeeded. -/
theorem execute_invokes_all_and_success_iff (invoke : φ → Except ε Unit)
    (m : RollbackManager φ) (h : m.enabled = true) :
    (m.execute invoke).2.1 = m.actions.reverse.map (fun a => a.action) ∧
      ((m.execute invoke).1 = true ↔
        ∀ a ∈ m.actions, (invoke a.action).isOk = true) := by
  refine ⟨execute_trace invoke m h, ?_⟩
  rw [execute_success_eq_all invoke m h]
  simp [List.all_eq_true]

/-- Sample behaviour for witnesses: operation 2 raises, all others succeed. -/
def sampleInvoke : Nat → Except Unit Unit :=
  fun n => if n = 2 then Except.error () else Except.ok ()

/-- Sample sequencer for witnesses: two registered actions. -/
def sampleManager : RollbackManager Nat :=
  mkManager [("first", 1), ("second", 2)]

theorem execute_invokes_all_witness :
    sampleManager.enabled = true ∧
      ((sampleManager.execute sampleInvoke).2.1
          = sampleManager.actions.reverse.map (fun a => a.action) ∧
        ((sampleManager.execute sampleInvoke).1 = true ↔
          ∀ a ∈ sampleManager.actions, (sampleInvoke a.action).isOk = true)) :=
  ⟨rfl, execute_invokes_all_and_success_iff sampleInvoke sampleManager rfl⟩

/- ### C3: execute never raises to its caller -/

/-- C3: `execute` never raises to its caller. Embedded in the `Except` monad
(where every single undo invocation may raise), the whole method returns
`Except.ok` for every manager state and every behaviour of the registered
operations, and the value returned is exactly the success flag and trace of
the pure model. -/
theorem execute_no_throw (invoke : φ → Except ε Unit) (m : RollbackManager φ) :
    m.executeE invoke
      = Except.ok ((m.execute invoke).1, (m.execute invoke).2.1) := by
  have hstep : ∀ (acc : Bool × List φ) (a : RollbackAction φ),
      invokeStepE invoke acc a = Except.ok (invokeStep invoke acc a) := by
    intro acc a
    cases h : invoke a.action <;>
      simp [invokeStepE, invokeStep, Except.tryCatch, Except.bind, h]
  have hbind : ∀ (x : Bool × List φ) (f : Bool × List φ → Except ε (Bool × List φ)),
      (Except.ok x >>= f) = f x := fun x f => rfl
  have hfold : ∀ (l : List (RollbackAction φ)) (acc : Bool × List φ),
      (l.foldlM (invokeStepE invoke) acc)
        = Except.ok (l.foldl (invokeStep invoke) acc) := by
    intro l
    induction l with
    | nil => intro acc; rfl
    | cons a l ih =>
      intro acc
      rw [List.foldlM_cons, List.foldl_cons, hstep, hbind, ih]
  obtain ⟨acts, en⟩ := m
  cases en
  · rfl
  · cases acts with
    | nil => rfl
    | cons a l =>
      show (((a :: l).reverse).foldlM (invokeStepE invoke) (true, [])
            : Except ε (Bool × List φ)) = _
      rw [hfold]
      rfl

/- ### C7: execute on an empty log is a successful no-op -/

/-- C7: `execute` called when the log is empty and rollback is enabled returns
true, invokes no operation, and leaves the state unchanged. -/
theorem execute_empty_log_noop (invoke : φ → Except ε Unit) (m : RollbackManager φ)
    (h1 : m.enabled = true) (h2 : m.actions = []) :
    m.execute invoke = (true, [], m) := by
  simp [RollbackManager.execute, h1, h2]

theorem execute_empty_log_noop_witness :
    (RollbackManager.init Nat).enabled = true ∧
      (RollbackManager.init Nat).actions = [] ∧
      (RollbackManager.init Nat).execute sampleInvoke
        = (true, [], RollbackManager.init Nat) :=
  ⟨rfl, rfl, execute_empty_log_noop sampleInvoke (RollbackManager.init Nat) rfl rfl⟩

/- ### C9: execute does not clear the log -/

/-- C9: `execute` does not clear the log: for every manager state and every
behaviour of the invoked operations, the log after `execute` returns equals
the log before the call. -/
theorem execute_preserves_log (invoke : φ → Except ε Unit) (m : RollbackManager φ) :
    ((m.execute invoke).2.2).actions = m.actions := by
  rw [execute_state]

/- ### Sequences of sequencer operations (for the disable / enabled claims) -/

/-- One call on the public surface of the sequencer (spec section 6). -/
inductive SeqOp (φ : Type) where
  | add (name : String) (action : φ)
  | clear
  | disable
  | execute

/-- Apply one public call to a manager state. `execute` keeps only the
post-state of the call (its return value is dropped here). -/
def applyOp (invoke : φ → Except ε Unit) (m : RollbackManager φ) :
    SeqOp φ → RollbackManager φ
  | SeqOp.add n a => m.add_action n a
  | SeqOp.clear => m.clear
  | SeqOp.disable => m.disable
  | SeqOp.execute => (m.execute invoke).2.2

/-- Apply a chronological sequence of public calls to a manager state. -/
def applyOps (invoke : φ → Except ε Unit) (m : RollbackManager φ)
    (ops : List (SeqOp φ)) : RollbackManager φ :=
  ops.foldl (applyOp invoke) m

/-- Whether a call sequence contains a `disable` call. -/
def hasDisable : List (SeqOp φ) → Bool
  | [] => false
  | SeqOp.disable :: _ => true
  | _ :: rest => hasDisable rest

theorem hasDisable_iff_mem (ops : List (SeqOp φ)) :
    hasDisable ops = true ↔ SeqOp.disable ∈ ops := by
  induction ops with
  | nil => simp [hasDisable]
  | cons op rest ih =>
    cases op <;> simp [hasDisable, ih]

theorem applyOp_enabled (invoke : φ → Except ε Unit) (m : RollbackManager φ)
    (op : SeqOp φ) :
    (applyOp invoke m op).enabled
      = (match op with | SeqOp.disable => false | _ => m.enabled) := by
  cases op <;>
    simp [applyOp, RollbackManager.add_action, RollbackManager.clear,
      RollbackManager.disable, execute_state]

theorem applyOps_enabled (invoke : φ → Except ε Unit) (ops : List (SeqOp φ))
    (m : RollbackManager φ) :
    (applyOps invoke m ops).enabled = (m.enabled && !hasDisable ops) := by
  induction ops generalizing m with
  | nil => simp [applyOps, hasDisable]
  | cons op rest ih =>
    cases op <;>
      simp [applyOps, List.foldl_cons, hasDisable, applyOp,
        RollbackManager.add_action, RollbackManager.clear,
        RollbackManager.disable, execute_state] <;>
      simp [applyOps] at ih <;>
      simp [ih, RollbackManager.add_action, RollbackManager.clear,
        RollbackManager.disable]

/- ### C5: after disable, every subsequent execute is a successful no-op -/

/-- C5: after `disable` has been called, every subsequent `execute` call —
whatever further `add_action`, `clear`, `disable` or `execute` calls happen
in between — returns true, invokes no operation, and leaves the state (log
included) untouched, regardless of log contents; and `disable` itself does
not clear the log. -/
theorem disable_makes_execute_noop (invoke : φ → Except ε Unit)
    (m : RollbackManager φ) (ops : List (SeqOp φ)) :
    ((applyOps invoke m.disable ops).execute invoke
        = (true, [], applyOps invoke m.disable ops)) ∧
      m.disable.actions = m.actions := by
  constructor
  · have hen : (applyOps invoke m.disable ops).enabled = false := by
      rw [applyOps_enabled]
      simp [RollbackManager.disable]
    simp [RollbackManager.execute, hen]
  · rfl

/- ### C8: clear then execute behaves like execute on a fresh empty log -/

/-- C8: `clear` empties the log, so after any prior sequence of `add_action`
calls, `clear` followed by `execute` invokes no operation and returns true —
the same return value and (empty) invocation trace as `execute` on a
sequencer whose log was never populated. -/
theorem clear_then_execute_like_fresh (invoke : φ → Except ε Unit)
    (l : List (String × φ)) :
    ((mkManager l).clear.actions = []) ∧
      ((mkManager l).clear.execute invoke
        = (true, [], (mkManager l).clear)) ∧
      (((mkManager l).clear.execute invoke).1
          = ((RollbackManager.init φ).execute invoke).1 ∧
        ((mkManager l).clear.execute invoke).2.1
          = ((RollbackManager.init φ).execute invoke).2.1) := by
  have hc : (mkManager l).clear.actions = [] := rfl
  have he : (mkManager l).clear.execute invoke = (true, [], (mkManager l).clear) := by
    by_cases hen : (mkManager l).clear.enabled = false <;>
      simp [RollbackManager.execute, hen, hc]
  refine ⟨hc, he, ?_, ?_⟩ <;> rw [he] <;> rfl

/- ### C10: only disable changes the enabled flag -/

/-- C10: `add_action`, `clear` and `execute` all leave the `enabled` flag
unchanged, and no operation sets it back to true, so starting from a fresh
sequencer the flag is false after a sequence of public calls if and only if
a `disable` call occurred in that sequence. -/
theorem only_disable_changes_enabled (invoke : φ → Except ε Unit) :
    (∀ (m : RollbackManager φ) (n : String) (a : φ),
        (m.add_action n a).enabled = m.enabled) ∧
      (∀ m : RollbackManager φ, m.clear.enabled = m.enabled) ∧
      (∀ m : RollbackManager φ, ((m.execute invoke).2.2).enabled = m.enabled) ∧
      (∀ ops : List (SeqOp φ),
        ((applyOps invoke (RollbackManager.init φ) ops).enabled = false ↔
          SeqOp.disable ∈ ops)) := by
  refine ⟨fun m n a => rfl, fun m => rfl, fun m => by rw [execute_state], fun ops => ?_⟩
  rw [applyOps_enabled, ← hasDisable_iff_mem]
  simp [RollbackManager.init]

/- ### C4: how the arguments of a registered undo action are captured

The drivers register undo actions whose arguments include the shared mutable
`DeploymentConfig` object: `deploy.py` line 140 runs
`rollback.add_action("Stop services", cleanup_failed_deployment, config, False)`
and `update.py` line 86 runs
`rollback.add_action("Start services", start_services, config)`.
Python stores in `RollbackAction.args` a reference to the `config` object,
not a copy; `execute` later calls `action.action(*action.args)`, so the undo
operation reads whatever state the shared object has at execute time. The
model below keeps that indirection explicit: a bound call stores either a
reference to the shared config object or an immediate literal, and the
reference is dereferenced against the store only when the call is invoked. -/

/-- The fields of `DeploymentConfig` (`config.py` lines 12-51) that the
registered undo operations read. -/
structure DeploymentConfig where
  project_dir : String
  container_name : String
  home_volume : String
deriving DecidableEq

/-- External commands the modelled undo operations issue, identified by the
data that selects their target (`docker_utils.py`). -/
inductive DockerCmd where
  | composeDown (compose_file : String) (removeVolumes : Bool)
  | removeContainer (name : String) (force : Bool)
  | removeVolume (name : String) (force : Bool)
  | composeUp (compose_file : String)
deriving DecidableEq

/-- `str(config.project_dir / "docker-compose.yml")`, as built by
`stop_services` and `start_services` in `docker_utils.py`. -/
def composeFile (config : DeploymentConfig) : String :=
  config.project_dir ++ "/docker-compose.yml"

/-- `cleanup_failed_deployment` (`rollback.py` lines 107-142) as the list of
external commands it attempts: stop the compose services, force-remove the
container, and, when `remove_volumes` is set, remove the home volume. Each
attempt is wrapped in its own `try/except` in the source; only the attempted
commands matter here. -/
def cleanup_failed_deployment (config : DeploymentConfig) (remove_volumes : Bool) :
    List DockerCmd :=
  [DockerCmd.composeDown (composeFile config) remove_volumes,
      DockerCmd.removeContainer config.container_name true]
    ++ (if remove_volumes then [DockerCmd.removeVolume config.home_volume true] else [])

/-- `start_services` (`docker_utils.py` lines 179-193) as the external command
it issues: `docker compose -f <project_dir>/docker-compose.yml up -d`. The
environment dictionary it also passes is not needed by the claims. -/
def start_services (config : DeploymentConfig) : List DockerCmd :=
  [DockerCmd.composeUp (composeFile config)]

/-- The callables the drivers register as undo operations. -/
inductive Callable where
  | cleanupFailedDeployment
  | startServices
deriving DecidableEq

/-- One positional argument as stored in `RollbackAction.args`: either a
reference to the shared `DeploymentConfig` object or an immediate boolean. -/
inductive PyArg where
  | configRef
  | boolLit (b : Bool)
deriving DecidableEq

/-- A deferred call as stored by `add_action`: the callable plus its captured
positional arguments. References stay references until invocation. -/
structure BoundCall where
  callable : Callable
  args : List PyArg
deriving DecidableEq

/-- Invoking a bound call at unwind time: `execute` runs
`action.action(*action.args)`, so a `configRef` argument is dereferenced
against the state the shared config object has at that moment (`store`).
Argument shapes other than the two the drivers register issue nothing. -/
def invokeBoundCall (store : DeploymentConfig) : BoundCall → List DockerCmd
  | { callable := Callable.cleanupFailedDeployment,
      args := [PyArg.configRef, PyArg.boolLit rv] } =>
      cleanup_failed_deployment store rv
  | { callable := Callable.startServices, args := [PyArg.configRef] } =>
      start_services store
  | _ => []

/-- The bound call registered by `deploy.py` line 140. -/
def deployStopServicesCall : BoundCall :=
  { callable := Callable.cleanupFailedDeployment,
    args := [PyArg.configRef, PyArg.boolLit false] }

/-- The bound call registered by `update.py` line 86. -/
def updateStartServicesCall : BoundCall :=
  { callable := Callable.startServices, args := [PyArg.configRef] }

/-- Commands issued at unwind time by the deploy-driver registration, when the
shared config object held `cfg0` at registration time and underwent the
mutation `mutate` between registration and `execute` (identity = no
mutation). -/
def deployUnwindCmds (cfg0 : DeploymentConfig)
    (mutate : DeploymentConfig → DeploymentConfig) : List DockerCmd :=
  invokeBoundCall (mutate cfg0) deployStopServicesCall

/-- Same for the update-driver registration of `start_services`. -/
def updateUnwindCmds (cfg0 : DeploymentConfig)
    (mutate : DeploymentConfig → DeploymentConfig) : List DockerCmd :=
  invokeBoundCall (mutate cfg0) updateStartServicesCall

/-- A concrete shared config object at registration time. -/
def cfgSample : DeploymentConfig :=
  { project_dir := "/srv/openclaw", container_name := "openclaw-gateway",
    home_volume := "openclaw-home" }

/-- A concrete post-registration mutation of the shared config object. -/
def renameContainer (c : DeploymentConfig) : DeploymentConfig :=
  { c with container_name := "other-gateway" }

/-- C4 as stated is false on the code: arguments are captured by reference,
not by value. Two runs that differ only in a post-registration mutation of
the shared config object produce different unwind behaviour — here the
mutated run force-removes the container under the mutated name. -/
theorem capture_by_value_counterexample :
    ¬ (deployUnwindCmds cfgSample renameContainer
        = deployUnwindCmds cfgSample id) := by
  decide

/-- C4 amended: the arguments of a registered action hold a reference to the
shared configuration object, so the undo invocation acts on the state the
shared object has at `execute` time: mutating it between registration and
`execute` changes the unwind behaviour accordingly, for the deploy-driver
registration (`cleanup_failed_deployment`) and for the update-driver
registration (`start_services`) alike. -/
theorem capture_by_reference (cfg0 : DeploymentConfig)
    (mutate : DeploymentConfig → DeploymentConfig) :
    deployUnwindCmds cfg0 mutate = cleanup_failed_deployment (mutate cfg0) false ∧
      updateUnwindCmds cfg0 mutate = start_services (mutate cfg0) :=
  ⟨rfl, rfl⟩

/- ### C6: the workflow drivers and their failure handling

`run_deploy` (`deploy.py`) and `run_update` (`update.py`) are embedded as
functions of an environment of oracle outcomes, one per fallible
collaborator call, and they return the boolean result of the driver together
with the chronological trace of the calls the driver makes on the sequencer.
All exceptions the collaborators can raise (`ValidationError`, `DockerError`,
`KeyboardInterrupt`, any other `Exception`) are caught by the except clauses
of both drivers, which behave identically: run `rollback.execute()` when
`auto_rollback` is set, then return False. Configuration loading happens
before the sequencer exists and its errors propagate out of the driver
uncaught, so it is outside this model. -/

/-- Which except clause of the drivers a raised exception selects. -/
inductive ExcKind where
  | validationError
  | dockerError
  | keyboardInterrupt
  | otherError
deriving DecidableEq

/-- Outcome of one fallible collaborator call returning nothing. -/
inductive StepOutcome where
  | ok
  | raises (k : ExcKind)
deriving DecidableEq

/-- Outcome of `wait_for_healthy`: it returns a boolean or raises. -/
inductive HealthOutcome where
  | healthy
  | unhealthy
  | raises (k : ExcKind)
deriving DecidableEq

/-- Outcome of the interactive `input()` prompt: a response string, or a
raise (for example an interrupt while waiting for input). -/
inductive PromptOutcome where
  | returns (response : String)
  | raises (k : ExcKind)
deriving DecidableEq

/-- One call made by a driver on the sequencer, in chronological order. -/
inductive SeqEvent where
  | disable
  | addAction (name : String)
  | clear
  | execute
deriving DecidableEq

/-- How many `execute()` calls a trace contains. -/
def countExecutes (evs : List SeqEvent) : Nat :=
  (evs.filter (fun e => e == SeqEvent.execute)).length

/-- Whether an event is an `add_action` or `clear` call. -/
def isBookkeeping : SeqEvent → Bool
  | SeqEvent.addAction _ => true
  | SeqEvent.clear => true
  | _ => false

/-- True when no `add_action` or `clear` call follows the first `execute`
call of the trace. -/
def noBookkeepingAfterExecute : List SeqEvent → Bool
  | [] => true
  | SeqEvent.execute :: rest => rest.all (fun e => !isBookkeeping e)
  | _ :: rest => noBookkeepingAfterExecute rest

/-- The shared behaviour of the except clauses of both drivers
(`deploy.py` lines 199-227, `update.py` lines 144-163): call
`rollback.execute()` when `auto_rollback` is set, then return False. -/
def failureReturn (auto_rollback : Bool) (evs : List SeqEvent) :
    Bool × List SeqEvent :=
  (false, evs ++ (if auto_rollback then [SeqEvent.execute] else []))

/-- `response.strip().lower() == "y"`, the overwrite confirmation test of
`deploy.py` line 107. -/
def pyIsYes (response : String) : Bool :=
  response.trim.toLower == "y"

/-- Oracle outcomes for one `run_deploy` invocation. -/
structure DeployEnv where
  interactive : Bool
  auto_rollback : Bool
  skip_health_check : Bool
  envFileExists : Bool
  validateR : StepOutcome
  createDirsR : StepOutcome
  promptR : PromptOutcome
  generateEnvR : StepOutcome
  buildR : StepOutcome
  startR : StepOutcome
  healthR : HealthOutcome
deriving DecidableEq

/-- `run_deploy` (`deploy.py` lines 22-227) from sequencer creation onward:
disable when `auto_rollback` is off; validate; create directories (no undo
registered); generate the `.env` file, behind an overwrite prompt when it
already exists and the run is interactive, registering its removal as undo
when it was written; build the image (no undo registered); start services and
register `cleanup_failed_deployment` as undo; health check unless skipped,
executing the rollback and returning False when unhealthy (with
`auto_rollback`); clear the log and return True on success. Any raise lands
in the except clauses modelled by `failureReturn`. -/
def runDeploy (env : DeployEnv) : Bool × List SeqEvent :=
  let ar := env.auto_rollback
  let ev0 : List SeqEvent := if ar then [] else [SeqEvent.disable]
  match env.validateR with
  | StepOutcome.raises _ => failureReturn ar ev0
  | StepOutcome.ok =>
  match env.createDirsR with
  | StepOutcome.raises _ => failureReturn ar ev0
  | StepOutcome.ok =>
  match
    (if env.envFileExists && env.interactive then
      match env.promptR with
      | PromptOutcome.raises _ => Sum.inl (failureReturn ar ev0)
      | PromptOutcome.returns response =>
        if pyIsYes response then
          match env.generateEnvR with
          | StepOutcome.raises _ => Sum.inl (failureReturn ar ev0)
          | StepOutcome.ok =>
            Sum.inr (ev0 ++ [SeqEvent.addAction "Remove .env file"])
        else Sum.inr ev0
    else
      match env.generateEnvR with
      | StepOutcome.raises _ => Sum.inl (failureReturn ar ev0)
      | StepOutcome.ok =>
        Sum.inr (ev0 ++ [SeqEvent.addAction "Remove .env file"])) with
  | Sum.inl r => r
  | Sum.inr ev1 =>
  match env.buildR with
  | StepOutcome.raises _ => failureReturn ar ev1
  | StepOutcome.ok =>
  match env.startR with
  | StepOutcome.raises _ => failureReturn ar ev1
  | StepOutcome.ok =>
  let ev2 := ev1 ++ [SeqEvent.addAction "Stop services"]
  if env.skip_health_check then (true, ev2 ++ [SeqEvent.clear])
  else
    match env.healthR with
    | HealthOutcome.raises _ => failureReturn ar ev2
    | HealthOutcome.healthy => (true, ev2 ++ [SeqEvent.clear])
    | HealthOutcome.unhealthy =>
      if ar then (false, ev2 ++ [SeqEvent.execute])
      else (false, ev2)

/-- Oracle outcomes for one `run_update` invocation. `healthFailStopR` is the
direct `stop_services(config)` call made inside the failed-health-check
branch. -/
structure UpdateEnv where
  auto_rollback : Bool
  skip_health_check : Bool
  containerExists : Bool
  validateR : StepOutcome
  stopR : StepOutcome
  buildR : StepOutcome
  startR : StepOutcome
  healthR : HealthOutcome
  healthFailStopR : StepOutcome
deriving DecidableEq

/-- `run_update` (`update.py` lines 21-163): return False when the container
does not exist (before the sequencer is created); disable when
`auto_rollback` is off; validate; stop services and register
`start_services` as undo; rebuild; start services and clear the log; health
check unless skipped. On a failed health check with `auto_rollback` the
source calls `stop_services` directly and returns False without calling
`execute` (the log was already cleared); a raise from that direct call lands
in the except clauses like any other raise. -/
def runUpdate (env : UpdateEnv) : Bool × List SeqEvent :=
  if env.containerExists = false then (false, [])
  else
    let ar := env.auto_rollback
    let ev0 : List SeqEvent := if ar then [] else [SeqEvent.disable]
    match env.validateR with
    | StepOutcome.raises _ => failureReturn ar ev0
    | StepOutcome.ok =>
    match env.stopR with
    | StepOutcome.raises _ => failureReturn ar ev0
    | StepOutcome.ok =>
    let ev1 := ev0 ++ [SeqEvent.addAction "Start services"]
    match env.buildR with
    | StepOutcome.raises _ => failureReturn ar ev1
    | StepOutcome.ok =>
    match env.startR with
    | StepOutcome.raises _ => failureReturn ar ev1
    | StepOutcome.ok =>
    let ev2 := ev1 ++ [SeqEvent.clear]
    if env.skip_health_check then (true, ev2)
    else
      match env.healthR with
      | HealthOutcome.raises _ => failureReturn ar ev2
      | HealthOutcome.healthy => (true, ev2)
      | HealthOutcome.unhealthy =>
        if ar then
          match env.healthFailStopR with
          | StepOutcome.raises _ => failureReturn ar ev2
          | StepOutcome.ok => (false, ev2)
        else (false, ev2)

theorem runDeploy_failure_unwinds_once (env : DeployEnv)
    (har : env.auto_rollback = true) (hf : (runDeploy env).1 = false) :
    countExecutes (runDeploy env).2 = 1 ∧
      noBookkeepingAfterExecute (runDeploy env).2 = true := by
  obtain ⟨inter, ar, skip, efe, v, cd, pr, ge, b, st, hl⟩ := env
  have har2 : ar = true := har
  subst har2
  revert hf
  cases v <;> cases cd <;> cases ge <;> cases b <;> cases st <;> cases hl <;>
    cases inter <;> cases skip <;> cases efe <;> rcases pr with s | k <;>
    first
      | (dsimp only [runDeploy]; decide)
      | (cases hpy : pyIsYes s <;> simp [runDeploy, hpy] <;> decide)

/-- Whether a fallible collaborator call returned normally. -/
def isOkOutcome : StepOutcome → Bool
  | StepOutcome.ok => true
  | StepOutcome.raises _ => false

/-- Whether `wait_for_healthy` returned False. -/
def isUnhealthy : HealthOutcome → Bool
  | HealthOutcome.unhealthy => true
  | HealthOutcome.healthy => false
  | HealthOutcome.raises _ => false

/-- The two failure paths of `run_update` on which the source does not call
`execute()`: the missing-container precondition check (no sequencer exists
yet), and the post-start failed-health-check path on which the log was
already cleared and `stop_services` is called directly and returns. -/
def updateSkipsUnwind (env : UpdateEnv) : Bool :=
  !env.containerExists ||
    (isOkOutcome env.validateR && isOkOutcome env.stopR &&
      isOkOutcome env.buildR && isOkOutcome env.startR &&
      !env.skip_health_check && isUnhealthy env.healthR &&
      isOkOutcome env.healthFailStopR)

theorem runUpdate_failure_unwind (env : UpdateEnv)
    (har : env.auto_rollback = true) (hf : (runUpdate env).1 = false) :
    noBookkeepingAfterExecute (runUpdate env).2 = true ∧
      (updateSkipsUnwind env = true → countExecutes (runUpdate env).2 = 0) ∧
      (updateSkipsUnwind env = false → countExecutes (runUpdate env).2 = 1) := by
  obtain ⟨ar, skip, ce, v, st2, b, st4, hl, hfs⟩ := env
  have har2 : ar = true := har
  subst har2
  revert hf
  cases ce <;> cases v <;> cases st2 <;> cases b <;> cases st4 <;> cases hl <;>
    cases skip <;> cases hfs <;>
    (dsimp only [runUpdate, updateSkipsUnwind, isOkOutcome, isUnhealthy]; decide)

/-- A run of `run_update` with rollback enabled in which every step succeeds
but the final health check reports unhealthy. -/
def updateFailsWithoutUnwind : UpdateEnv :=
  { auto_rollback := true, skip_health_check := false, containerExists := true,
    validateR := StepOutcome.ok, stopR := StepOutcome.ok,
    buildR := StepOutcome.ok, startR := StepOutcome.ok,
    healthR := HealthOutcome.unhealthy, healthFailStopR := StepOutcome.ok }

/-- C6 as stated is false on the code: `run_update` with `auto_rollback`
enabled, all steps succeeding and the final health check unhealthy reports
overall failure without ever calling the sequencer `execute()`. -/
theorem driver_unwinds_once_counterexample :
    updateFailsWithoutUnwind.auto_rollback = true ∧
      (runUpdate updateFailsWithoutUnwind).1 = false ∧
      countExecutes (runUpdate updateFailsWithoutUnwind).2 = 0 := by
  decide

/-- C6 amended: in every failing run with `auto_rollback` enabled,
`run_deploy` calls the sequencer `execute()` exactly once before reporting
failure; `run_update` calls it exactly once except on its missing-container
precondition failure and on its post-start failed-health-check path (where
the log was already cleared and `stop_services` is called directly), on
which it calls it zero times; and neither driver calls `add_action` or
`clear` after an `execute()` call. -/
theorem driver_unwinds_once_amended :
    (∀ env : DeployEnv, env.auto_rollback = true → (runDeploy env).1 = false →
        countExecutes (runDeploy env).2 = 1 ∧
          noBookkeepingAfterExecute (runDeploy env).2 = true) ∧
      (∀ env : UpdateEnv, env.auto_rollback = true → (runUpdate env).1 = false →
        noBookkeepingAfterExecute (runUpdate env).2 = true ∧
          (updateSkipsUnwind env = true → countExecutes (runUpdate env).2 = 0) ∧
          (updateSkipsUnwind env = false → countExecutes (runUpdate env).2 = 1)) :=
  ⟨runDeploy_failure_unwinds_once, runUpdate_failure_unwind⟩

/-- A deploy run failing at validation and an update run failing at the image
rebuild, both with rollback enabled. -/
def deployFailEnv : DeployEnv :=
  { interactive := false, auto_rollback := true, skip_health_check := false,
    envFileExists := false,
    validateR := StepOutcome.raises ExcKind.validationError,
    createDirsR := StepOutcome.ok, promptR := PromptOutcome.returns "",
    generateEnvR := StepOutcome.ok, buildR := StepOutcome.ok,
    startR := StepOutcome.ok, healthR := HealthOutcome.healthy }

def updateFailEnv : UpdateEnv :=
  { auto_rollback := true, skip_health_check := false, containerExists := true,
    validateR := StepOutcome.ok, stopR := StepOutcome.ok,
    buildR := StepOutcome.raises ExcKind.dockerError, startR := StepOutcome.ok,
    healthR := HealthOutcome.healthy, healthFailStopR := StepOutcome.ok }

theorem driver_unwinds_once_amended_witness :
    (countExecutes (runDeploy deployFailEnv).2 = 1 ∧
        noBookkeepingAfterExecute (runDeploy deployFailEnv).2 = true) ∧
      (noBookkeepingAfterExecute (runUpdate updateFailEnv).2 = true ∧
        (updateSkipsUnwind updateFailEnv = true →
          countExecutes (runUpdate updateFailEnv).2 = 0) ∧
        (updateSkipsUnwind updateFailEnv = false →
          countExecutes (runUpdate updateFailEnv).2 = 1)) :=
  ⟨driver_unwinds_once_amended.1 deployFailEnv rfl (by decide),
   driver_unwinds_once_amended.2 updateFailEnv rfl (by decide)⟩

end OpenClaw
